import Mathlib

/-!
Shallow embedding of `src/main.py` (Fireblocks Webhook Service):
the Pydantic payload model, `send_telegram_message`, `format_transaction_message`
and the `POST /fireblocks-webhook` handler, together with theorems settling the
specification claims.

The environment (the two `TELEGRAM_*` variables) and the outcome of the single
`requests.post` call are passed as explicit parameters; the list of issued HTTP
POST requests and the number of notifier invocations are returned alongside the
result, so that "zero outbound calls" claims are statable.
-/

/-- A value stored in one of the untyped `source`/`destination` dicts, as far as
the claims need: Python `None` or a string. `pyStr` below gives its rendering
under f-string interpolation. -/
inductive DictVal where
  | null
  | str (s : String)
deriving DecidableEq, Repr

/-- A Python dict with string keys, as an association list (keys unique). -/
abbrev PyDict := List (String × DictVal)

/-- Python `d.get(k, default)`: the stored value when the key is present
(even when that value is `None`), the default otherwise. -/
def dictGetD (d : PyDict) (k : String) (dflt : DictVal) : DictVal :=
  match d.lookup k with
  | Option.none => dflt
  | Option.some v => v

/-- Python `str()` rendering used by f-string interpolation: `None` prints as
`"None"`, a string prints as itself. -/
def pyStr : DictVal → String
  | DictVal.null => "None"
  | DictVal.str s => s

/-- The Pydantic model `FireblocksWebhook` (src/main.py lines 19-26): `id` is
required, every other field is optional with default `None`. -/
structure FireblocksWebhook where
  id : String
  source : Option PyDict := Option.none
  destination : Option PyDict := Option.none
  amount : Option String := Option.none
  assetId : Option String := Option.none
  createdAt : Option String := Option.none
  event : Option String := Option.none
deriving DecidableEq, Repr

/-- Python truthiness of an optional string (`os.getenv` result or an optional
model field): `None` and `""` are falsy, every other string is truthy. -/
def strTruthy : Option String → Bool
  | Option.none => false
  | Option.some s => !(s == "")

/-- `x or 'N/A'` as it appears inside the f-string (lines 63-64): the string
itself when truthy, the `"N/A"` placeholder when `None` or empty. -/
def pyOrNA (x : Option String) : String :=
  if strTruthy x then x.getD "" else "N/A"

/-- `w.source.get('id', 'N/A') if w.source else 'N/A'` (lines 66-67), rendered
by the f-string. A `None` or empty (falsy) dict gives `"N/A"`; otherwise the
dict's `id` entry is rendered, defaulting to `"N/A"` when the key is absent. -/
def partyField (d : Option PyDict) : String :=
  match d with
  | Option.none => "N/A"
  | Option.some l =>
      if l.isEmpty then "N/A" else pyStr (dictGetD l "id" (DictVal.str "N/A"))

/-- `format_transaction_message` (lines 57-71): the f-string template with the
interpolated fields, then `.strip()`. The two U+FFFD pairs reproduce the bytes
of the source file; `String.trim` matches Python `str.strip` here because the
template's boundary whitespace is fixed (`"\n"` on both ends). -/
def format_transaction_message (w : FireblocksWebhook) : String :=
  ("\n�� <b>New Transaction Created</b>\n\n📋 <b>Transaction ID:</b> <code>"
    ++ w.id
    ++ "</code>\n💰 <b>Amount:</b> " ++ pyOrNA w.amount ++ " " ++ pyOrNA w.assetId
    ++ "\n📅 <b>Created:</b> " ++ pyOrNA w.createdAt
    ++ "\n\n📍 <b>Source:</b> " ++ partyField w.source
    ++ "\n�� <b>Destination:</b> " ++ partyField w.destination
    ++ "\n\n#Fireblocks #Transaction\n").trim

/-- The message template as a function of the six rendered field strings: the
same fixed fragments as `format_transaction_message`, with the rendered values
in their slots. Changing how one field renders changes only its slot. -/
def messageTemplate (idv amountv assetv createdv sourcev destv : String) : String :=
  ("\n�� <b>New Transaction Created</b>\n\n📋 <b>Transaction ID:</b> <code>"
    ++ idv
    ++ "</code>\n💰 <b>Amount:</b> " ++ amountv ++ " " ++ assetv
    ++ "\n📅 <b>Created:</b> " ++ createdv
    ++ "\n\n📍 <b>Source:</b> " ++ sourcev
    ++ "\n�� <b>Destination:</b> " ++ destv
    ++ "\n\n#Fireblocks #Transaction\n").trim

/-- The two environment variables read by `send_telegram_message`
(`os.getenv` returns `None` when unset). -/
structure TelegramEnv where
  TELEGRAM_BOT_TOKEN : Option String
  TELEGRAM_CHAT_ID : Option String
deriving DecidableEq, Repr

/-- The provider's HTTP response, as used by the code: status code and body. -/
structure HttpResponse where
  status_code : Nat
  text : String
deriving DecidableEq, Repr

/-- Outcome of the single `requests.post` call: either a response, or a raised
exception (transport fault), carrying its description. -/
inductive HttpOutcome where
  | response (r : HttpResponse)
  | fault (description : String)
deriving DecidableEq, Repr

/-- The outbound POST issued to the provider: URL and JSON body fields
`chat_id`, `text`, `parse_mode` (line 40-44). -/
structure TelegramRequest where
  url : String
  chat_id : String
  text : String
  parse_mode : String
deriving DecidableEq, Repr

/-- `send_telegram_message` (lines 28-55). Returns the boolean result paired
with the list of HTTP POSTs issued. If either variable is falsy (`None` or
`""`, per `if not bot_token or not chat_id`), returns `False` with no POST.
Otherwise issues exactly one POST; the result is `True` exactly when
`response.status_code == 200`, and `False` on any other status or on a raised
exception. (`getD ""` only extracts the string: the truthiness guard
guarantees both options are `some` on that branch.) -/
def send_telegram_message (env : TelegramEnv) (http : HttpOutcome) (message : String) :
    Bool × List TelegramRequest :=
  if !strTruthy env.TELEGRAM_BOT_TOKEN || !strTruthy env.TELEGRAM_CHAT_ID then
    (false, [])
  else
    let url := "https://api.telegram.org/bot" ++ env.TELEGRAM_BOT_TOKEN.getD ""
                 ++ "/sendMessage"
    let req : TelegramRequest :=
      ⟨url, env.TELEGRAM_CHAT_ID.getD "", message, "HTML"⟩
    match http with
    | HttpOutcome.response r =>
        if r.status_code == 200 then (true, [req]) else (false, [req])
    | HttpOutcome.fault _ => (false, [req])

/-- A JSON value, enough for the handler's response bodies. -/
inductive JsonVal where
  | null
  | str (s : String)
  | obj (fields : List (String × JsonVal))
deriving Repr

/-- An optional string field serialized into a JSON response body. -/
def JsonVal.ofOptStr : Option String → JsonVal
  | Option.none => JsonVal.null
  | Option.some s => JsonVal.str s

/-- Model of `fastapi.HTTPException(status_code, detail)`. -/
structure HTTPError where
  status_code : Nat
  detail : String
deriving DecidableEq, Repr

/-- Python `str(e)` for an `HTTPException`: Starlette's `HTTPException.__str__`
returns `f"{status_code}: {detail}"`. -/
def HTTPError.toStr (e : HTTPError) : String :=
  toString e.status_code ++ ": " ++ e.detail

/-- What a call to the webhook handler produces: the HTTP-level result (a 200
JSON body, or a raised `HTTPException`), the outbound POSTs issued, and the
number of times `send_telegram_message` was invoked. -/
structure HandlerOutcome where
  result : Except HTTPError JsonVal
  requests_posted : List TelegramRequest
  notifier_calls : Nat
deriving Repr

/-- The body of the `try:` block of `fireblocks_webhook` (lines 81-98).
An `Except.error` is an `HTTPException` raised inside the block. -/
def fireblocks_webhook_try (env : TelegramEnv) (http : HttpOutcome)
    (w : FireblocksWebhook) : Except HTTPError JsonVal × List TelegramRequest × Nat :=
  if w.event ≠ Option.some "TRANSACTION_CREATED" then
    (Except.ok (JsonVal.obj
      [("message", JsonVal.str "Event ignored"), ("event", JsonVal.ofOptStr w.event)]),
     [], 0)
  else
    let message := format_transaction_message w
    let sr := send_telegram_message env http message
    if sr.1 then
      (Except.ok (JsonVal.obj
        [("message", JsonVal.str "Webhook processed successfully"),
         ("transaction_id", JsonVal.str w.id)]),
       sr.2, 1)
    else
      (Except.error ⟨500, "Failed to send Telegram notification"⟩, sr.2, 1)

/-- `fireblocks_webhook` (lines 78-102). The `except Exception` clause catches
every exception raised in the `try:` block — including the
`HTTPException(500, "Failed to send Telegram notification")` raised on notifier
failure, because FastAPI's `HTTPException` subclasses `Exception` — and
re-raises `HTTPException(500, f"Internal server error: {str(e)}")`. Returned
values pass through unchanged. -/
def fireblocks_webhook (env : TelegramEnv) (http : HttpOutcome)
    (w : FireblocksWebhook) : HandlerOutcome :=
  match fireblocks_webhook_try env http w with
  | (Except.ok j, reqs, n) => ⟨Except.ok j, reqs, n⟩
  | (Except.error e, reqs, n) =>
      ⟨Except.error ⟨500, "Internal server error: " ++ HTTPError.toStr e⟩, reqs, n⟩

/-- With both configuration values truthy, `send_telegram_message` issues
exactly one POST, whatever the provider does. -/
theorem send_posts_length (env : TelegramEnv) (http : HttpOutcome) (m : String)
    (hb : strTruthy env.TELEGRAM_BOT_TOKEN = true)
    (hc : strTruthy env.TELEGRAM_CHAT_ID = true) :
    (send_telegram_message env http m).2.length = 1 := by
  unfold send_telegram_message
  simp only [hb, hc, Bool.not_true, Bool.or_self, Bool.false_eq_true, if_false]
  cases http with
  | response r => by_cases h : r.status_code == 200 <;> simp [h]
  | fault d => simp

/-- C1 counterexample: with valid configuration, a provider response with
status 201 — inside the 200 range the claim asserts succeeds — makes
`send_telegram_message` return `false`. -/
theorem C1_counterexample :
    (200 ≤ 201 ∧ 201 ≤ 299) ∧
    (send_telegram_message ⟨Option.some "t", Option.some "c"⟩
        (HttpOutcome.response ⟨201, ""⟩) "m").1 = false :=
  ⟨⟨by decide, by decide⟩, rfl⟩

/-- C1 (amended): with both configuration values present (truthy), the Notifier
returns success if and only if the provider's response status is exactly 200;
any other status, and any transport fault, yields `false`. -/
theorem C1_success_iff_status_200 (env : TelegramEnv) (msg : String)
    (hb : strTruthy env.TELEGRAM_BOT_TOKEN = true)
    (hc : strTruthy env.TELEGRAM_CHAT_ID = true) :
    (∀ r : HttpResponse,
       (send_telegram_message env (HttpOutcome.response r) msg).1 = true
         ↔ r.status_code = 200)
    ∧ (∀ d : String,
         (send_telegram_message env (HttpOutcome.fault d) msg).1 = false) := by
  unfold send_telegram_message
  simp only [hb, hc, Bool.not_true, Bool.or_self, Bool.false_eq_true, if_false]
  constructor
  · intro r
    by_cases h : r.status_code = 200 <;> simp [h]
  · intro d
    simp

/-- C1 witness: the amended theorem at a concrete configuration and a concrete
200 response. -/
theorem C1_witness :
    (send_telegram_message ⟨Option.some "t", Option.some "c"⟩
        (HttpOutcome.response ⟨200, "ok"⟩) "m").1 = true :=
  ((C1_success_iff_status_200 ⟨Option.some "t", Option.some "c"⟩ "m" rfl rfl).1
    ⟨200, "ok"⟩).mpr rfl

/-- C2: at a `TRANSACTION_CREATED` request with valid configuration and a 502
provider response, the handler's own `except Exception` catches the
delivery-failure `HTTPException` and re-raises it with the generic detail
`"Internal server error: 500: Failed to send Telegram notification"` — the
delivery-failure detail is re-wrapped, contrary to the claim. -/
theorem C2_detail_rewrapped :
    (fireblocks_webhook ⟨Option.some "t", Option.some "c"⟩
        (HttpOutcome.response ⟨502, "bad gateway"⟩)
        ⟨"tx9", Option.none, Option.none, Option.none, Option.none, Option.none,
         Option.some "TRANSACTION_CREATED"⟩).result
      = Except.error
          ⟨500, "Internal server error: 500: Failed to send Telegram notification"⟩ :=
  rfl

/-- C3: every request whose `event` is not `"TRANSACTION_CREATED"` (including
a missing `event`) gets the 200 acknowledgment
`{"message": "Event ignored", "event": <value or null>}`, with zero outbound
POSTs and zero invocations of `send_telegram_message`. -/
theorem C3_ignored_no_calls (env : TelegramEnv) (http : HttpOutcome)
    (w : FireblocksWebhook) (h : w.event ≠ Option.some "TRANSACTION_CREATED") :
    fireblocks_webhook env http w =
      ⟨Except.ok (JsonVal.obj
          [("message", JsonVal.str "Event ignored"),
           ("event", JsonVal.ofOptStr w.event)]),
       [], 0⟩ := by
  unfold fireblocks_webhook fireblocks_webhook_try
  simp [h]

/-- C3 witness: the spec's own example — event `"TRANSACTION_PENDING"` is
acknowledged as ignored with no outbound activity. -/
theorem C3_witness :
    fireblocks_webhook ⟨Option.some "t", Option.some "c"⟩
        (HttpOutcome.response ⟨200, ""⟩)
        ⟨"tx2", Option.none, Option.none, Option.none, Option.none, Option.none,
         Option.some "TRANSACTION_PENDING"⟩ =
      ⟨Except.ok (JsonVal.obj
          [("message", JsonVal.str "Event ignored"),
           ("event", JsonVal.str "TRANSACTION_PENDING")]),
       [], 0⟩ :=
  C3_ignored_no_calls ⟨Option.some "t", Option.some "c"⟩
    (HttpOutcome.response ⟨200, ""⟩)
    ⟨"tx2", Option.none, Option.none, Option.none, Option.none, Option.none,
     Option.some "TRANSACTION_PENDING"⟩ (by decide)

/-- C4 counterexample: with both configuration variables unset, a
`TRANSACTION_CREATED` request issues zero HTTP POSTs to the provider, not
exactly one. -/
theorem C4_counterexample :
    (fireblocks_webhook ⟨Option.none, Option.none⟩ (HttpOutcome.response ⟨200, ""⟩)
        ⟨"tx1", Option.none, Option.none, Option.none, Option.none, Option.none,
         Option.some "TRANSACTION_CREATED"⟩).requests_posted.length = 0 :=
  rfl

/-- C4 (amended): every `TRANSACTION_CREATED` request invokes
`send_telegram_message` exactly once, and — provided both configuration values
are present (truthy) — exactly one HTTP POST is issued, regardless of the
provider's response or fault. -/
theorem C4_one_outbound_call (env : TelegramEnv) (http : HttpOutcome)
    (w : FireblocksWebhook) (he : w.event = Option.some "TRANSACTION_CREATED")
    (hb : strTruthy env.TELEGRAM_BOT_TOKEN = true)
    (hc : strTruthy env.TELEGRAM_CHAT_ID = true) :
    (fireblocks_webhook env http w).notifier_calls = 1
    ∧ (fireblocks_webhook env http w).requests_posted.length = 1 := by
  have hlen := send_posts_length env http (format_transaction_message w) hb hc
  unfold fireblocks_webhook fireblocks_webhook_try
  simp only [he]
  cases hsr : (send_telegram_message env http (format_transaction_message w)).1 <;>
    simp [hsr, hlen]

/-- C4 witness: the amended theorem at a concrete configuration, a concrete 503
response and a concrete `TRANSACTION_CREATED` payload. -/
theorem C4_witness :
    (fireblocks_webhook ⟨Option.some "t", Option.some "c"⟩
        (HttpOutcome.response ⟨503, "unavailable"⟩)
        ⟨"tx1", Option.none, Option.none, Option.none, Option.none, Option.none,
         Option.some "TRANSACTION_CREATED"⟩).notifier_calls = 1
    ∧ (fireblocks_webhook ⟨Option.some "t", Option.some "c"⟩
        (HttpOutcome.response ⟨503, "unavailable"⟩)
        ⟨"tx1", Option.none, Option.none, Option.none, Option.none, Option.none,
         Option.some "TRANSACTION_CREATED"⟩).requests_posted.length = 1 :=
  C4_one_outbound_call ⟨Option.some "t", Option.some "c"⟩
    (HttpOutcome.response ⟨503, "unavailable"⟩)
    ⟨"tx1", Option.none, Option.none, Option.none, Option.none, Option.none,
     Option.some "TRANSACTION_CREATED"⟩ rfl rfl rfl

/-- C5: if either environment variable is absent (`os.getenv` returns `None`),
`send_telegram_message` fails with no outbound POST, and a
`TRANSACTION_CREATED` request gets a raised `HTTPException` with status 500
(its detail the catch-all re-wrap of the delivery-failure detail), again with
no outbound POST. -/
theorem C5_missing_config_no_network (env : TelegramEnv) (http : HttpOutcome)
    (w : FireblocksWebhook) (msg : String)
    (h : env.TELEGRAM_BOT_TOKEN = Option.none ∨ env.TELEGRAM_CHAT_ID = Option.none) :
    send_telegram_message env http msg = (false, [])
    ∧ (w.event = Option.some "TRANSACTION_CREATED" →
        fireblocks_webhook env http w =
          ⟨Except.error
             ⟨500, "Internal server error: 500: Failed to send Telegram notification"⟩,
           [], 1⟩) := by
  have hsend : ∀ m, send_telegram_message env http m = (false, []) := by
    intro m
    unfold send_telegram_message
    rcases h with h | h <;> simp [h, strTruthy]
  refine ⟨hsend msg, ?_⟩
  intro he
  unfold fireblocks_webhook fireblocks_webhook_try
  simp only [he, hsend, ne_eq, not_true_eq_false, if_false, Bool.false_eq_true]
  rfl

/-- C5 witness: the theorem at a concrete environment missing the bot token and
a concrete `TRANSACTION_CREATED` payload. -/
theorem C5_witness :
    send_telegram_message ⟨Option.none, Option.some "c"⟩
        (HttpOutcome.response ⟨200, ""⟩) "hello" = (false, [])
    ∧ fireblocks_webhook ⟨Option.none, Option.some "c"⟩
        (HttpOutcome.response ⟨200, ""⟩)
        ⟨"tx5", Option.none, Option.none, Option.none, Option.none, Option.none,
         Option.some "TRANSACTION_CREATED"⟩ =
      ⟨Except.error
         ⟨500, "Internal server error: 500: Failed to send Telegram notification"⟩,
       [], 1⟩ :=
  have h := C5_missing_config_no_network ⟨Option.none, Option.some "c"⟩
    (HttpOutcome.response ⟨200, ""⟩)
    ⟨"tx5", Option.none, Option.none, Option.none, Option.none, Option.none,
     Option.some "TRANSACTION_CREATED"⟩ "hello" (Or.inl rfl)
  ⟨h.1, h.2 rfl⟩

/-- C6: the formatted message factors through the fixed template with one slot
per field (so each field renders independently); a missing `amount`, `assetId`
or `createdAt` renders as `"N/A"`, a missing `source`/`destination` mapping
renders as `"N/A"`, and a present mapping whose `id` key is absent also renders
as `"N/A"`. -/
theorem C6_missing_fields_render_NA :
    (∀ w : FireblocksWebhook,
       format_transaction_message w =
         messageTemplate w.id (pyOrNA w.amount) (pyOrNA w.assetId)
           (pyOrNA w.createdAt) (partyField w.source) (partyField w.destination))
    ∧ pyOrNA Option.none = "N/A"
    ∧ partyField Option.none = "N/A"
    ∧ (∀ d : PyDict, d.lookup "id" = Option.none →
         partyField (Option.some d) = "N/A") := by
  refine ⟨fun w => rfl, rfl, rfl, ?_⟩
  intro d h
  cases d with
  | nil => rfl
  | cons hd tl => simp [partyField, dictGetD, h, pyStr]

/-- C6 witness: a present mapping without an `id` key renders as `"N/A"`. -/
theorem C6_witness :
    partyField (Option.some [("wallet", DictVal.str "w1")]) = "N/A" :=
  C6_missing_fields_render_NA.2.2.2 [("wallet", DictVal.str "w1")] rfl

/-- C7: every `TRANSACTION_CREATED` request for which the Notifier reports
success gets the 200 body
`{"message": "Webhook processed successfully", "transaction_id": <id>}`,
and exactly one POST was issued. -/
theorem C7_success_ack (env : TelegramEnv) (http : HttpOutcome)
    (w : FireblocksWebhook)
    (he : w.event = Option.some "TRANSACTION_CREATED")
    (hs : (send_telegram_message env http (format_transaction_message w)).1 = true) :
    fireblocks_webhook env http w =
      ⟨Except.ok (JsonVal.obj
          [("message", JsonVal.str "Webhook processed successfully"),
           ("transaction_id", JsonVal.str w.id)]),
       (send_telegram_message env http (format_transaction_message w)).2, 1⟩ := by
  unfold fireblocks_webhook fireblocks_webhook_try
  simp [he, hs]

/-- C7 witness: the spec's example — payload
`id "tx1", event "TRANSACTION_CREATED", amount "10", assetId "BTC"` with valid
configuration and a 200 provider response yields
`{"message": "Webhook processed successfully", "transaction_id": "tx1"}`. -/
theorem C7_witness :
    (fireblocks_webhook ⟨Option.some "token", Option.some "chat"⟩
        (HttpOutcome.response ⟨200, "ok"⟩)
        ⟨"tx1", Option.none, Option.none, Option.some "10", Option.some "BTC",
         Option.none, Option.some "TRANSACTION_CREATED"⟩).result =
      Except.ok (JsonVal.obj
        [("message", JsonVal.str "Webhook processed successfully"),
         ("transaction_id", JsonVal.str "tx1")]) := by
  rw [C7_success_ack ⟨Option.some "token", Option.some "chat"⟩
    (HttpOutcome.response ⟨200, "ok"⟩)
    ⟨"tx1", Option.none, Option.none, Option.some "10", Option.some "BTC",
     Option.none, Option.some "TRANSACTION_CREATED"⟩ rfl rfl]

/-- C8: an empty-string configuration value behaves exactly like an unset one:
`send_telegram_message` returns `false` with no outbound POST, and the outcome
coincides with the outcome for the unset variable. -/
theorem C8_empty_config_as_absent (http : HttpOutcome) (msg : String) :
    (∀ chat : Option String,
       send_telegram_message ⟨Option.some "", chat⟩ http msg = (false, [])
       ∧ send_telegram_message ⟨Option.some "", chat⟩ http msg
           = send_telegram_message ⟨Option.none, chat⟩ http msg)
    ∧ (∀ tok : Option String,
         send_telegram_message ⟨tok, Option.some ""⟩ http msg = (false, [])
         ∧ send_telegram_message ⟨tok, Option.some ""⟩ http msg
             = send_telegram_message ⟨tok, Option.none⟩ http msg) := by
  constructor
  · intro chat
    constructor <;> simp [send_telegram_message, strTruthy]
  · intro tok
    constructor <;> simp [send_telegram_message, strTruthy]

/-- C9: when a present `source`/`destination` mapping has an `id` key, the
rendered field is the Python string form of that value — `"None"` for a null
`id`, never the placeholder — while the `"N/A"` placeholder arises exactly from
an absent mapping or an absent `id` key. -/
theorem C9_null_id_renders_None :
    (∀ (d : PyDict) (v : DictVal), d.lookup "id" = Option.some v →
       partyField (Option.some d) = pyStr v)
    ∧ pyStr DictVal.null = "None"
    ∧ (∀ d : PyDict, d.lookup "id" = Option.some DictVal.null →
         partyField (Option.some d) = "None")
    ∧ partyField Option.none = "N/A"
    ∧ (∀ d : PyDict, d.lookup "id" = Option.none →
         partyField (Option.some d) = "N/A") := by
  have hgen : ∀ (d : PyDict) (v : DictVal), d.lookup "id" = Option.some v →
      partyField (Option.some d) = pyStr v := by
    intro d v h
    cases d with
    | nil => simp [List.lookup] at h
    | cons hd tl => simp [partyField, dictGetD, h]
  refine ⟨hgen, rfl, fun d h => hgen d DictVal.null h, rfl, ?_⟩
  intro d h
  cases d with
  | nil => rfl
  | cons hd tl => simp [partyField, dictGetD, h, pyStr]

/-- C9 witness: a mapping whose `id` is null renders as `"None"`. -/
theorem C9_witness :
    partyField (Option.some [("id", DictVal.null)]) = "None" :=
  C9_null_id_renders_None.2.2.1 [("id", DictVal.null)] rfl

/-- C10: an `amount`, `assetId` or `createdAt` equal to the empty string
renders as `"N/A"`, and the whole formatted message is identical to the one for
the absent field. -/
theorem C10_empty_string_fields_render_NA (w : FireblocksWebhook) :
    pyOrNA (Option.some "") = "N/A"
    ∧ format_transaction_message { w with amount := Option.some "" }
        = format_transaction_message { w with amount := Option.none }
    ∧ format_transaction_message { w with assetId := Option.some "" }
        = format_transaction_message { w with assetId := Option.none }
    ∧ format_transaction_message { w with createdAt := Option.some "" }
        = format_transaction_message { w with createdAt := Option.none } :=
  ⟨rfl, rfl, rfl, rfl⟩
